import Mathlib

/-!
Verification development for the `CustomProvider` node-ingestion pipeline
(`src/provider/CustomProvider.ts`).

The per-descriptor pipeline (`getNodeList`) is embedded shallowly:
JavaScript runtime values that the code inspects for truthiness are modelled
by `JSVal`, JS numbers that can be `NaN` by `JNum`, absent object properties
by `Option`, thrown exceptions by `Except String`.  The asynchronous node
source resolves to a list of raw descriptors; theorems quantify over that
resolved list, which covers both a static list and a supplier result.

Parts of the repository outside `src/` (the protocol schema validators, the
`NodeTypeEnum` constants, the `js-base64` dependency) are modelled from the
specification; each such definition is marked `Modelled from the spec:`.
-/

deriving instance DecidableEq for Except

/-- A JavaScript number: either an integer value or `NaN`
(the only numbers this pipeline produces; `parseInt` yields `NaN` on
garbage). -/
inductive JNum where
  | num (n : Int)
  | nan
deriving DecidableEq, Repr

/-- An untyped JavaScript value as stored on a raw descriptor field whose
only use is a truthiness test (the deprecated-field guard). -/
inductive JSVal where
  | nullV
  | boolV (b : Bool)
  | numV (n : JNum)
  | strV (s : String)
  | objV
deriving DecidableEq, Repr

/-- JavaScript truthiness of a `JSVal`. -/
def JSVal.truthy : JSVal → Bool
  | .nullV => false
  | .boolV b => b
  | .numV (.num n) => decide (n ≠ 0)
  | .numV .nan => false
  | .strV s => decide (s ≠ "")
  | .objV => true

/-- Truthiness of a possibly-absent JS value (`undefined` is falsy). -/
def truthyOpt : Option JSVal → Bool
  | none => false
  | some v => v.truthy

/-- Truthiness of a possibly-absent JS string (`undefined` and `""` are
falsy). -/
def strTruthy : Option String → Bool
  | none => false
  | some s => decide (s ≠ "")

/-- `String(x) || y` as used in `node.path || '/'`. -/
def strOr (x : Option String) (y : String) : String :=
  match x with
  | none => y
  | some s => if s = "" then y else s

/-- JavaScript `String.prototype.split` with a single-character separator,
on the character list of the string: splits at every occurrence of `sep`,
keeping empty pieces (`"a::b".split(':') = ['a','','b']`,
`"".split(':') = ['']`). -/
def jsSplit (sep : Char) : List Char → List (List Char)
  | [] => [[]]
  | c :: rest =>
    if c = sep then [] :: jsSplit sep rest
    else
      match jsSplit sep rest with
      | [] => [[c]]
      | g :: gs => (c :: g) :: gs

/-- `jsSplit` never returns the empty list. -/
theorem jsSplit_ne_nil (sep : Char) (cs : List Char) : jsSplit sep cs ≠ [] := by
  cases cs with
  | nil => simp [jsSplit]
  | cons c rest =>
    simp only [jsSplit]
    split
    · simp
    · cases jsSplit sep rest <;> simp

/-- Splitting a separator-free list yields the single piece. -/
theorem jsSplit_eq_single (sep : Char) (cs : List Char)
    (h : ∀ c ∈ cs, c ≠ sep) : jsSplit sep cs = [cs] := by
  induction cs with
  | nil => rfl
  | cons c rest ih =>
    have hc : c ≠ sep := h c (List.mem_cons_self c rest)
    have hrest : jsSplit sep rest = [rest] :=
      ih (fun x hx => h x (List.mem_cons_of_mem c hx))
    simp [jsSplit, hc, hrest]

/-- Splitting at the first separator occurrence peels off the
separator-free prefix. -/
theorem jsSplit_append (sep : Char) (a b : List Char)
    (h : ∀ c ∈ a, c ≠ sep) :
    jsSplit sep (a ++ sep :: b) = a :: jsSplit sep b := by
  induction a with
  | nil => simp [jsSplit]
  | cons c rest ih =>
    have hc : c ≠ sep := h c (List.mem_cons_self c rest)
    have hrest := ih (fun x hx => h x (List.mem_cons_of_mem c hx))
    simp [jsSplit, hc, hrest]

/-- JavaScript whitespace accepted by `parseInt` (the characters relevant
to this pipeline). -/
def isJsSpace (c : Char) : Bool :=
  c = ' ' ∨ c = '\t' ∨ c = '\n' ∨ c = '\r'

/-- Numeric value of a list of decimal digit characters. -/
def digitsVal : List Char → Nat → Nat
  | [], acc => acc
  | c :: rest, acc => digitsVal rest (acc * 10 + (c.toNat - 48))

/-- JavaScript `parseInt(s, 10)`: skip whitespace, optional sign, then the
maximal run of leading decimal digits; `NaN` when no digit is found. -/
def parseIntStr (s : String) : JNum :=
  let cs := s.data.dropWhile isJsSpace
  let sign : Int := if cs.head? = some '-' then -1 else 1
  let rest :=
    if cs.head? = some '-' ∨ cs.head? = some '+' then cs.tail else cs
  let digits := rest.takeWhile Char.isDigit
  if digits = [] then .nan
  else .num (sign * (digitsVal digits 0 : Nat))

/-- JavaScript `parseInt(x, 10)` where `x` may be `undefined`
(`parseInt(undefined, 10)` is `NaN`). -/
def parseIntJS : Option String → JNum
  | none => .nan
  | some s => parseIntStr s

/-! ## Base64 decoding (`js-base64`'s `Base64.decode`)

`Modelled from the spec:` the `js-base64` dependency is not part of the
repository; the spec says the envelope payload is base64-decoded.  Standard
base64 alphabet, padding stripped, decoded bytes interpreted as UTF-8
(invalid sequences become U+FFFD). -/

namespace Base64

/-- Six-bit value of a standard base64 alphabet character. -/
def charVal (c : Char) : Nat :=
  if 'A' ≤ c ∧ c ≤ 'Z' then c.toNat - 65
  else if 'a' ≤ c ∧ c ≤ 'z' then c.toNat - 97 + 26
  else if '0' ≤ c ∧ c ≤ '9' then c.toNat - 48 + 52
  else if c = '+' then 62
  else if c = '/' then 63
  else 0

/-- Reassemble 6-bit groups into bytes (a trailing lone 6-bit group carries
no full byte and is dropped). -/
def sextetsToBytes : List Nat → List Nat
  | a :: b :: c :: d :: rest =>
    (a * 4 + b / 16) :: ((b % 16) * 16 + c / 4) :: ((c % 4) * 64 + d)
      :: sextetsToBytes rest
  | [a, b] => [a * 4 + b / 16]
  | [a, b, c] => [a * 4 + b / 16, (b % 16) * 16 + c / 4]
  | _ => []

/-- Whether a byte is a UTF-8 continuation byte. -/
def isCont (b : Nat) : Bool := 128 ≤ b ∧ b < 192

/-- Decode a UTF-8 byte sequence; a malformed sequence is replaced with
U+FFFD and decoding resumes after the examined bytes (this branch is never
exercised in this development: every decoded payload is ASCII). -/
def utf8Decode : List Nat → List Char
  | [] => []
  | b :: rest =>
    if b < 128 then
      Char.ofNat b :: utf8Decode rest
    else if 192 ≤ b ∧ b < 224 then
      match rest with
      | c :: rest2 =>
        (if isCont c then Char.ofNat ((b - 192) * 64 + (c - 128))
         else Char.ofNat 65533) :: utf8Decode rest2
      | [] => [Char.ofNat 65533]
    else if 224 ≤ b ∧ b < 240 then
      match rest with
      | c :: d :: rest2 =>
        (if isCont c ∧ isCont d then
          Char.ofNat ((b - 224) * 4096 + (c - 128) * 64 + (d - 128))
         else Char.ofNat 65533) :: utf8Decode rest2
      | _ => [Char.ofNat 65533]
    else if 240 ≤ b ∧ b < 248 then
      match rest with
      | c :: d :: e :: rest2 =>
        (if isCont c ∧ isCont d ∧ isCont e then
          Char.ofNat
              ((b - 240) * 262144 + (c - 128) * 4096 + (d - 128) * 64
                + (e - 128))
         else Char.ofNat 65533) :: utf8Decode rest2
      | _ => [Char.ofNat 65533]
    else Char.ofNat 65533 :: utf8Decode rest

/-- `Base64.decode`: strip `=` padding, map characters to 6-bit values,
reassemble bytes, decode as UTF-8. -/
def decode (s : String) : String :=
  String.mk (utf8Decode (sextetsToBytes
    ((s.data.filter (fun c => c ≠ '=')).map charVal)))

end Base64

/-! ## The legacy-envelope regular expression

`/^(ss|vmess):\/\/([A-Za-z0-9+/=]+)(#.*)?$/` from `getNodeList`, embedded
as an executable matcher.  In a JavaScript regex without flags, `.` excludes
the four line terminators and `$` anchors at the end of the input; the
alternation and the greedy `+` are deterministic here because `#` is not a
payload character. -/

/-- A character of the payload class `[A-Za-z0-9+/=]`. -/
def isBase64Char (c : Char) : Bool :=
  ('A' ≤ c ∧ c ≤ 'Z') ∨ ('a' ≤ c ∧ c ≤ 'z') ∨ ('0' ≤ c ∧ c ≤ '9')
    ∨ c = '+' ∨ c = '/' ∨ c = '='

/-- A JavaScript line terminator (not matched by `.`). -/
def isLineTerminator (c : Char) : Bool :=
  c = '\n' ∨ c = '\r' ∨ c = Char.ofNat 8232 ∨ c = Char.ofNat 8233

/-- The result of a successful match: the two capture groups and the
optional fragment group. -/
structure Base64Match where
  scheme : String
  payload : String
  fragment : Option String
deriving DecidableEq, Repr

/-- Match the anchored scheme alternation `(ss|vmess)` followed by `://`. -/
def schemePrefix? (cs : List Char) : Option (String × List Char) :=
  if cs.take 5 = ("ss://").data then some (("ss"), cs.drop 5)
  else if cs.take 8 = ("vmess://").data then some (("vmess"), cs.drop 8)
  else none

/-- Match the whole envelope pattern
`^(ss|vmess):\/\/([A-Za-z0-9+/=]+)(#.*)?$`. -/
def matchBase64Pattern (s : String) : Option Base64Match :=
  match schemePrefix? s.data with
  | none => none
  | some (scheme, rest) =>
    let payload := rest.takeWhile isBase64Char
    let tail := rest.dropWhile isBase64Char
    if payload = [] then none
    else
      match tail with
      | [] => some { scheme := scheme, payload := String.mk payload,
                     fragment := none }
      | '#' :: frag =>
        if frag.all (fun c => ! isLineTerminator c) then
          some { scheme := scheme, payload := String.mk payload,
                 fragment := some (String.mk ('#' :: frag)) }
        else none
      | _ => none

/-! ## Node type tags

`Modelled from the spec:` `NodeTypeEnum` lives in `../types`, outside
`src/`; the spec fixes a closed enumeration of twelve protocol variants.
As in the source language the enum values are strings, so the tag field of
a raw descriptor is an arbitrary string compared against these constants. -/

namespace NodeTypeEnum

def Shadowsocks : String := "shadowsocks"
def Shadowsocksr : String := "shadowsocksr"
def Vmess : String := "vmess"
def Trojan : String := "trojan"
def Socks5 : String := "socks5"
def HTTP : String := "http"
def HTTPS : String := "https"
def Snell : String := "snell"
def Tuic : String := "tuic"
def Wireguard : String := "wireguard"
def Hysteria2 : String := "hysteria2"
def Vless : String := "vless"

end NodeTypeEnum

/-- The `nodeTypeMap` object literal of the decoder: maps a captured scheme
to a node type tag, `undefined` (`none`) otherwise. -/
def nodeTypeMap (scheme : String) : Option String :=
  if scheme = "ss" then some NodeTypeEnum.Shadowsocks
  else if scheme = "vmess" then some NodeTypeEnum.Vmess
  else none

/-- HTTP-style header maps carried by `wsHeaders` / `wsOpts.headers`
(an object; any present object is truthy, even an empty one). -/
def Headers : Type := List (String × String)

instance : DecidableEq Headers := by
  unfold Headers
  infer_instance

/-- The `wsOpts` object on a vmess node. -/
structure WsOpts where
  headers : Option Headers
  path : Option String
deriving DecidableEq

/-- A raw node descriptor: an open mapping from field names to untyped
values.  The model carries exactly the properties the pipeline reads;
absence is `none`. -/
structure RawNode where
  base64 : Option String := none
  type : Option String := none
  udpRelay : Option JSVal := none
  obfsHost : Option JSVal := none
  obfsUri : Option JSVal := none
  hostname : Option String := none
  port : Option JNum := none
  method : Option String := none
  password : Option String := none
  underlyingProxy : Option String := none
  host : Option String := none
  sni : Option String := none
  path : Option String := none
  network : Option String := none
  wsHeaders : Option Headers := none
  wsOpts : Option WsOpts := none
deriving DecidableEq

/-! ## Validated node configurations

`Modelled from the spec:` the per-protocol validators live in
`../validators`, outside `src/`.  The spec fixes: one validator per variant,
each the authority on required/optional fields; every validated
configuration carries a common optional `underlyingProxy`.  The spec does
not enumerate the per-protocol field lists, so each model validator
requires the fields this pipeline reads or produces (hostname, a numeric
in-range port; shadowsocks additionally method and password) and passes
the remaining descriptor fields through. -/

/-- The shadowsocks variant of a validated node configuration. -/
structure ShadowsocksNodeConfig where
  hostname : String
  port : Nat
  method : String
  password : String
  underlyingProxy : Option String
deriving DecidableEq

/-- The vmess variant of a validated node configuration. -/
structure VmessNodeConfig where
  hostname : String
  port : Nat
  network : Option String
  host : Option String
  sni : Option String
  path : Option String
  wsHeaders : Option Headers
  wsOpts : Option WsOpts
  underlyingProxy : Option String
deriving DecidableEq

/-- A validated configuration of one of the ten remaining protocol
variants (the pipeline treats them uniformly). -/
structure GenericNodeConfig where
  hostname : String
  port : Nat
  underlyingProxy : Option String
deriving DecidableEq

/-- The tagged union of validated node configurations. -/
inductive PossibleNodeConfigType where
  | shadowsocks (c : ShadowsocksNodeConfig)
  | vmess (c : VmessNodeConfig)
  | generic (tag : String) (c : GenericNodeConfig)
deriving DecidableEq

/-- The `underlyingProxy` attribute common to every variant. -/
def PossibleNodeConfigType.underlyingProxy : PossibleNodeConfigType → Option String
  | .shadowsocks c => c.underlyingProxy
  | .vmess c => c.underlyingProxy
  | .generic _ c => c.underlyingProxy

/-- Assign the `underlyingProxy` attribute (same variant, one field). -/
def PossibleNodeConfigType.withUnderlyingProxy
    (cfg : PossibleNodeConfigType) (up : Option String) :
    PossibleNodeConfigType :=
  match cfg with
  | .shadowsocks c => .shadowsocks { c with underlyingProxy := up }
  | .vmess c => .vmess { c with underlyingProxy := up }
  | .generic t c => .generic t { c with underlyingProxy := up }

/-- `Modelled from the spec:` the shadowsocks schema validator: requires
`hostname`, a numeric port in range, `method` and `password`; carries the
descriptor's `underlyingProxy` through. -/
def ShadowsocksNodeConfigValidator.parse (node : RawNode) :
    Except String PossibleNodeConfigType :=
  match node.hostname, node.port, node.method, node.password with
  | some h, some (.num po), some m, some pw =>
    if 1 ≤ po ∧ po ≤ 65535 then
      .ok (.shadowsocks
        { hostname := h, port := po.toNat, method := m, password := pw,
          underlyingProxy := node.underlyingProxy })
    else .error ("shadowsocks: port out of range")
  | _, _, _, _ => .error ("shadowsocks: missing or invalid required field")

/-- `Modelled from the spec:` the vmess schema validator: requires
`hostname` and a numeric port in range; passes the transport-related
optional fields through. -/
def VmessNodeConfigValidator.parse (node : RawNode) :
    Except String PossibleNodeConfigType :=
  match node.hostname, node.port with
  | some h, some (.num po) =>
    if 1 ≤ po ∧ po ≤ 65535 then
      .ok (.vmess
        { hostname := h, port := po.toNat, network := node.network,
          host := node.host, sni := node.sni, path := node.path,
          wsHeaders := node.wsHeaders, wsOpts := node.wsOpts,
          underlyingProxy := node.underlyingProxy })
    else .error ("vmess: port out of range")
  | _, _ => .error ("vmess: missing or invalid required field")

/-- `Modelled from the spec:` the shared shape of the ten remaining schema
validators: requires `hostname` and a numeric port in range. -/
def genericValidatorParse (tag : String) (node : RawNode) :
    Except String PossibleNodeConfigType :=
  match node.hostname, node.port with
  | some h, some (.num po) =>
    if 1 ≤ po ∧ po ≤ 65535 then
      .ok (.generic tag
        { hostname := h, port := po.toNat,
          underlyingProxy := node.underlyingProxy })
    else .error (tag ++ ": port out of range")
  | _, _ => .error (tag ++ ": missing or invalid required field")

def ShadowsocksrNodeConfigValidator.parse : RawNode → Except String PossibleNodeConfigType :=
  genericValidatorParse NodeTypeEnum.Shadowsocksr

def TrojanNodeConfigValidator.parse : RawNode → Except String PossibleNodeConfigType :=
  genericValidatorParse NodeTypeEnum.Trojan

def Socks5NodeConfigValidator.parse : RawNode → Except String PossibleNodeConfigType :=
  genericValidatorParse NodeTypeEnum.Socks5

def HttpNodeConfigValidator.parse : RawNode → Except String PossibleNodeConfigType :=
  genericValidatorParse NodeTypeEnum.HTTP

def HttpsNodeConfigValidator.parse : RawNode → Except String PossibleNodeConfigType :=
  genericValidatorParse NodeTypeEnum.HTTPS

def SnellNodeConfigValidator.parse : RawNode → Except String PossibleNodeConfigType :=
  genericValidatorParse NodeTypeEnum.Snell

def TuicNodeConfigValidator.parse : RawNode → Except String PossibleNodeConfigType :=
  genericValidatorParse NodeTypeEnum.Tuic

def WireguardNodeConfigValidator.parse : RawNode → Except String PossibleNodeConfigType :=
  genericValidatorParse NodeTypeEnum.Wireguard

def Hysteria2NodeConfigValidator.parse : RawNode → Except String PossibleNodeConfigType :=
  genericValidatorParse NodeTypeEnum.Hysteria2

def VlessNodeConfigValidator.parse : RawNode → Except String PossibleNodeConfigType :=
  genericValidatorParse NodeTypeEnum.Vless

/-! ## The legacy encoding decoder (`getNodeList` lines 73–112) -/

/-- Render a possibly-undefined string as the template literal `${type}`
does. -/
def jsStringOf : Option String → String
  | none => "undefined"
  | some s => s

/-- The branch of the decoder's `switch (nodeType)` statement that is
taken. -/
inductive DecodeBranch where
  | ssCase
  | vmessCase
  | defaultCase
deriving DecidableEq

/-- Branch selection of `switch (nodeType)`: `nodeType` is
`nodeTypeMap[match[1]]` and may be `undefined`. -/
def switchBranch (nodeType : Option String) : DecodeBranch :=
  if nodeType = some NodeTypeEnum.Shadowsocks then .ssCase
  else if nodeType = some NodeTypeEnum.Vmess then .vmessCase
  else .defaultCase

/-- The shadowsocks case of the decoder:
`const [method, passwordWithHost, port] = decoded.split(':')`,
`const [password, hostname] = passwordWithHost.split('@')`, then the merge
`node = { ...node, type, hostname, port: parseInt(port, 10), method,
password }`.  When `decoded` contains no `:` the destructured
`passwordWithHost` is `undefined` and `.split` on it throws. -/
def ssApplyDecoded (node : RawNode) (decoded : String) :
    Except String RawNode :=
  let parts := (jsSplit ':' decoded.data).map String.mk
  match parts.get? 1 with
  | none => .error ("TypeError: passwordWithHost is undefined")
  | some passwordWithHost =>
    let hp := (jsSplit '@' passwordWithHost.data).map String.mk
    .ok { node with
      type := some NodeTypeEnum.Shadowsocks,
      hostname := hp.get? 1,
      port := some (parseIntJS (parts.get? 2)),
      method := some (parts.headD ("")),
      password := some (hp.headD ("")) }

/-- The whole `if (node.base64)` block: truthiness test, pattern match
(`throw new TypeError` on no match), scheme lookup and `switch`.  The
default case only logs a warning and leaves the descriptor unchanged. -/
def decodeBase64Step (node : RawNode) : Except String RawNode :=
  match node.base64 with
  | none => .ok node
  | some b64 =>
    if b64 = "" then .ok node
    else
      match matchBase64Pattern b64 with
      | none => .error ("Invalid base64 format")
      | some m =>
        let nodeType := nodeTypeMap m.scheme
        let decoded := Base64.decode m.payload
        match switchBranch nodeType with
        | .ssCase => ssApplyDecoded node decoded
        | .vmessCase => .ok node
        | .defaultCase => .ok node

/-! ## Deprecated-field guard, dispatcher, per-descriptor unit -/

/-- The three deprecated-field checks of `getNodeList` (lines 116–129), in
source order; each tests JS truthiness of the field. -/
def checkDeprecated (node : RawNode) : Except String Unit :=
  if truthyOpt node.udpRelay then
    .error ("udp-relay 已废弃, 请使用 udpRelay")
  else if truthyOpt node.obfsHost then
    .error ("obfs-host 已废弃, 请使用 obfsHost")
  else if truthyOpt node.obfsUri then
    .error ("obfs-uri 已废弃, 请使用 obfsUri")
  else .ok ()

/-- The `switch (type)` dispatcher of `getNodeList` (lines 131–173): routes
to the matching validator, throws on an unrecognized or missing tag. -/
def dispatchByType (node : RawNode) : Except String PossibleNodeConfigType :=
  let t := node.type
  if t = some NodeTypeEnum.Shadowsocks then ShadowsocksNodeConfigValidator.parse node
  else if t = some NodeTypeEnum.Shadowsocksr then ShadowsocksrNodeConfigValidator.parse node
  else if t = some NodeTypeEnum.Vmess then VmessNodeConfigValidator.parse node
  else if t = some NodeTypeEnum.Trojan then TrojanNodeConfigValidator.parse node
  else if t = some NodeTypeEnum.Socks5 then Socks5NodeConfigValidator.parse node
  else if t = some NodeTypeEnum.HTTP then HttpNodeConfigValidator.parse node
  else if t = some NodeTypeEnum.HTTPS then HttpsNodeConfigValidator.parse node
  else if t = some NodeTypeEnum.Snell then SnellNodeConfigValidator.parse node
  else if t = some NodeTypeEnum.Tuic then TuicNodeConfigValidator.parse node
  else if t = some NodeTypeEnum.Wireguard then WireguardNodeConfigValidator.parse node
  else if t = some NodeTypeEnum.Hysteria2 then Hysteria2NodeConfigValidator.parse node
  else if t = some NodeTypeEnum.Vless then VlessNodeConfigValidator.parse node
  else .error ("无法识别的节点类型：" ++ jsStringOf t)

/-- Lines 175–177 of `getNodeList`:
`if (this.underlyingProxy && !parsedNode.underlyingProxy)
   parsedNode.underlyingProxy = this.underlyingProxy`. -/
def applyUnderlyingProxy (up : Option String)
    (cfg : PossibleNodeConfigType) : PossibleNodeConfigType :=
  if strTruthy up ∧ ¬ strTruthy cfg.underlyingProxy then
    cfg.withUnderlyingProxy up
  else cfg

/-- The `if (node.host) node.sni = node.host` statement
(line 193–195). -/
def vmessHostStep (node : VmessNodeConfig) : VmessNodeConfig :=
  if strTruthy node.host then { node with sni := node.host } else node

/-- The `if (node.wsHeaders)` block (lines 197–208): construct a fresh
`wsOpts`, reject a double declaration of headers, or merge. -/
def vmessWsHeadersStep (node : VmessNodeConfig) :
    Except String VmessNodeConfig :=
  if node.wsHeaders.isSome then
    match node.wsOpts with
    | none =>
      let fresh : WsOpts :=
        { headers := node.wsHeaders, path := some (strOr node.path ("/")) }
      .ok { node with wsOpts := some fresh }
    | some w =>
      if w.headers.isSome then
        .error ("wsOpts.headers 和 wsHeaders 不能同时存在")
      else
        .ok { node with wsOpts := some { w with headers := node.wsHeaders } }
  else .ok node

/-- The three transport/path checks (lines 210–220), in source order. -/
def vmessPathChecks (node : VmessNodeConfig) :
    Except String VmessNodeConfig :=
  if node.network = some ("ws") ∧ strTruthy node.path then
    .error ("请将 path 移动到 wsOpts.path")
  else if node.network = some ("h2") ∧ strTruthy node.path then
    .error ("请将 path 移动到 h2Opts.path")
  else if node.network = some ("http") ∧ strTruthy node.path then
    .error ("请将 path 移动到 httpOpts.path")
  else .ok node

/-- `prepareVmessNodeConfig` (lines 192–223): host-to-sni copy, `wsHeaders`
reconciliation, and the three transport/path checks, in source order. -/
def prepareVmessNodeConfig (node0 : VmessNodeConfig) :
    Except String VmessNodeConfig :=
  match vmessWsHeadersStep (vmessHostStep node0) with
  | .error e => .error e
  | .ok node => vmessPathChecks node

/-- The tail of the per-descriptor unit: default-fill of the underlying
proxy and conditional vmess post-processing. -/
def processAfterDispatch (up : Option String)
    (parsed0 : PossibleNodeConfigType) :
    Except String PossibleNodeConfigType :=
  match applyUnderlyingProxy up parsed0 with
  | .vmess v =>
    match prepareVmessNodeConfig v with
    | .error e => .error e
    | .ok v2 => .ok (.vmess v2)
  | other => .ok other

/-- The statements of the per-descriptor unit after the legacy decode:
deprecated-field guard, dispatch, default-fill, vmess post-processing. -/
def processAfterDecode (up : Option String) (node : RawNode) :
    Except String PossibleNodeConfigType :=
  match checkDeprecated node with
  | .error e => .error e
  | .ok _ =>
    match dispatchByType node with
    | .error e => .error e
    | .ok parsed0 => processAfterDispatch up parsed0

/-- The body of one iteration of the `forEach` in `getNodeList`: the
isolated per-descriptor unit (decode → guard → dispatch → default-fill →
vmess post-processing).  A thrown error is the unit's failure. -/
def processNode (up : Option String) (node0 : RawNode) :
    Except String PossibleNodeConfigType :=
  match decodeBase64Step node0 with
  | .error e => .error e
  | .ok node => processAfterDecode up node

/-! ## The batch orchestrator -/

/-- A `CustomProvider` instance: the configuration state that
`getNodeList` reads (`this.underlyingProxy`).  The node source resolves —
statically or through the supplier — to the descriptor list that is passed
to `CustomProvider.getNodeList` below. -/
structure CustomProvider where
  name : String
  underlyingProxy : Option String := none

/-- One `forEach` iteration: on success push the parsed node, on a thrown
error log it with the current index (`Error parsing node at index ...`);
either way move to the next index. -/
def getNodeListStep (up : Option String)
    (acc : (List PossibleNodeConfigType × List (Nat × String)) × Nat)
    (node : RawNode) :
    (List PossibleNodeConfigType × List (Nat × String)) × Nat :=
  match processNode up node with
  | .ok c => ((acc.1.1 ++ [c], acc.1.2), acc.2 + 1)
  | .error e => ((acc.1.1, acc.1.2 ++ [(acc.2, e)]), acc.2 + 1)

/-- `getNodeList` over the resolved descriptor list: the returned parsed
node list together with the per-index failure log. -/
def CustomProvider.getNodeList (p : CustomProvider)
    (nodeList : List RawNode) :
    List PossibleNodeConfigType × List (Nat × String) :=
  (nodeList.foldl (getNodeListStep p.underlyingProxy) (([], []), 0)).1

/-- The successful outcomes of the per-descriptor units, in input order. -/
def expectedResults (up : Option String) (nodes : List RawNode) :
    List PossibleNodeConfigType :=
  nodes.filterMap (fun n => (processNode up n).toOption)

/-- The failing descriptors together with their indices (starting at
`i`), in input order. -/
def expectedErrors (up : Option String) :
    List RawNode → Nat → List (Nat × String)
  | [], _ => []
  | n :: rest, i =>
    match processNode up n with
    | .ok _ => expectedErrors up rest (i + 1)
    | .error e => (i, e) :: expectedErrors up rest (i + 1)

/-- Generalized accumulator form of the `forEach` fold. -/
theorem getNodeList_foldl (up : Option String) (nodes : List RawNode)
    (rs : List PossibleNodeConfigType) (es : List (Nat × String)) (i : Nat) :
    nodes.foldl (getNodeListStep up) ((rs, es), i)
      = ((rs ++ expectedResults up nodes, es ++ expectedErrors up nodes i),
         i + nodes.length) := by
  induction nodes generalizing rs es i with
  | nil => simp [expectedResults, expectedErrors]
  | cons n rest ih =>
    cases h : processNode up n with
    | ok c =>
      have h1 : expectedResults up (n :: rest) = c :: expectedResults up rest := by
        simp [expectedResults, h, Except.toOption]
      have h2 : expectedErrors up (n :: rest) i = expectedErrors up rest (i + 1) := by
        simp [expectedErrors, h]
      simp only [List.foldl_cons, getNodeListStep, h]
      rw [ih, h1, h2]
      simp [List.append_assoc, Nat.add_assoc, Nat.add_comm 1 rest.length]
    | error e =>
      have h1 : expectedResults up (n :: rest) = expectedResults up rest := by
        simp [expectedResults, h, Except.toOption]
      have h2 : expectedErrors up (n :: rest) i
          = (i, e) :: expectedErrors up rest (i + 1) := by
        simp [expectedErrors, h]
      simp only [List.foldl_cons, getNodeListStep, h]
      rw [ih, h1, h2]
      simp [List.append_assoc, Nat.add_assoc, Nat.add_comm 1 rest.length]

/-- `getNodeList` returns exactly the successful outcomes in order,
and logs exactly the failing indices. -/
theorem getNodeList_eq (p : CustomProvider) (nodes : List RawNode) :
    p.getNodeList nodes
      = (expectedResults p.underlyingProxy nodes,
         expectedErrors p.underlyingProxy nodes 0) := by
  unfold CustomProvider.getNodeList
  rw [getNodeList_foldl]
  simp

/-- `expectedErrors` distributes over append, shifting the index base. -/
theorem expectedErrors_append (up : Option String) (a b : List RawNode)
    (i : Nat) :
    expectedErrors up (a ++ b) i
      = expectedErrors up a i ++ expectedErrors up b (i + a.length) := by
  induction a generalizing i with
  | nil => simp [expectedErrors]
  | cons n rest ih =>
    simp only [List.cons_append, expectedErrors]
    cases h : processNode up n with
    | ok c =>
      simp [h, ih, Nat.add_assoc, Nat.add_comm 1 rest.length]
    | error e =>
      simp [h, ih, Nat.add_assoc, Nat.add_comm 1 rest.length]

/-! ## Claims -/

/-- Claim C1: for every resolved node source, `getNodeList` returns exactly
the validated configurations of the descriptors whose per-descriptor unit
succeeds, in the same relative order as the input with failed descriptors
omitted, and every fatal condition is recorded with its descriptor's index.
Both components are pointwise images of `processNode` on the individual
descriptors, so a failure never aborts the batch and never changes the
outcome of any other descriptor. -/
theorem c1_batch_order_and_isolation (p : CustomProvider)
    (nodes : List RawNode) :
    p.getNodeList nodes
      = (nodes.filterMap (fun n => (processNode p.underlyingProxy n).toOption),
         expectedErrors p.underlyingProxy nodes 0) :=
  getNodeList_eq p nodes

/-- The single-descriptor input of claim C3: the legacy envelope is
`ss://` followed by the base64 encoding of
`aes-256-gcm:secret@example.com:8388`. -/
def c3Node : RawNode :=
  { base64 := some ("ss://YWVzLTI1Ni1nY206c2VjcmV0QGV4YW1wbGUuY29tOjgzODg=") }

/-- Claim C3: retrieval on that descriptor yields exactly one shadowsocks
node configuration with method `aes-256-gcm`, password `secret`, hostname
`example.com` and port `8388`, and no recorded failure. -/
theorem c3_ss_envelope_yields_shadowsocks_node :
    (CustomProvider.mk ("provider") none).getNodeList [c3Node]
      = ([PossibleNodeConfigType.shadowsocks
            { hostname := ("example.com"), port := 8388,
              method := ("aes-256-gcm"), password := ("secret"),
              underlyingProxy := none }], []) := by
  decide

/-- A successful scheme-prefix match captures `ss` or `vmess`. -/
theorem schemePrefix_scheme (cs : List Char) (pr : String × List Char)
    (h : schemePrefix? cs = some pr) : pr.1 = "ss" ∨ pr.1 = "vmess" := by
  unfold schemePrefix? at h
  split at h
  · cases h; exact Or.inl rfl
  · split at h
    · cases h; exact Or.inr rfl
    · exact Option.noConfusion h

/-- A successful envelope match captures `ss` or `vmess` as the scheme. -/
theorem matchBase64Pattern_scheme (s : String) (m : Base64Match)
    (h : matchBase64Pattern s = some m) :
    m.scheme = "ss" ∨ m.scheme = "vmess" := by
  unfold matchBase64Pattern at h
  cases hp : schemePrefix? s.data with
  | none => rw [hp] at h; exact Option.noConfusion h
  | some pr =>
    rw [hp] at h
    have hs := schemePrefix_scheme s.data pr hp
    simp only [] at h
    split at h
    · exact Option.noConfusion h
    · split at h
      · cases h; simpa using hs
      · split at h
        · cases h; simpa using hs
        · exact Option.noConfusion h
      · exact Option.noConfusion h

/-- Claim C10: every envelope that matches the pattern captures a scheme
that `nodeTypeMap` maps to a defined node type, so the decoder's
`switch` never reaches its fallback (`defaultCase`) branch on a matched
envelope. -/
theorem c10_matched_scheme_not_default (s : String) (m : Base64Match)
    (h : matchBase64Pattern s = some m) :
    (m.scheme = "ss" ∨ m.scheme = "vmess")
    ∧ (nodeTypeMap m.scheme).isSome
    ∧ switchBranch (nodeTypeMap m.scheme) ≠ DecodeBranch.defaultCase := by
  have hs := matchBase64Pattern_scheme s m h
  refine ⟨hs, ?_, ?_⟩ <;> rcases hs with h1 | h1 <;>
    simp [h1, nodeTypeMap, switchBranch, NodeTypeEnum.Shadowsocks,
      NodeTypeEnum.Vmess]

/-- Witness for C10 at the concrete envelope `ss://YWJj`. -/
theorem c10_witness :
    ((Base64Match.mk ("ss") ("YWJj") none).scheme = "ss"
      ∨ (Base64Match.mk ("ss") ("YWJj") none).scheme = "vmess")
    ∧ (nodeTypeMap (Base64Match.mk ("ss") ("YWJj") none).scheme).isSome
    ∧ switchBranch (nodeTypeMap (Base64Match.mk ("ss") ("YWJj") none).scheme)
        ≠ DecodeBranch.defaultCase :=
  c10_matched_scheme_not_default ("ss://YWJj")
    (Base64Match.mk ("ss") ("YWJj") none) (by decide)

/-- Claim C8: when the provider holds a default underlying-proxy reference,
the default-fill step assigns it exactly to validated nodes that declare
none, and leaves a node declaring its own value entirely unchanged. -/
theorem c8_underlying_proxy_fill (up : Option String)
    (cfg : PossibleNodeConfigType) (hup : strTruthy up) :
    (¬ strTruthy cfg.underlyingProxy →
      (applyUnderlyingProxy up cfg).underlyingProxy = up)
    ∧ (strTruthy cfg.underlyingProxy → applyUnderlyingProxy up cfg = cfg) := by
  constructor
  · intro h
    rw [applyUnderlyingProxy, if_pos ⟨hup, h⟩]
    cases cfg <;> rfl
  · intro h
    rw [applyUnderlyingProxy, if_neg]
    intro hc
    exact hc.2 h

/-- The validated configuration used by the C8 witness: no declared
underlying proxy. -/
def c8Cfg : PossibleNodeConfigType :=
  .shadowsocks
    { hostname := ("h"), port := 80, method := ("m"), password := ("p"),
      underlyingProxy := none }

/-- Witness for C8: the provider default `proxy` is filled onto a node
that declares none. -/
theorem c8_witness :
    (applyUnderlyingProxy (some ("proxy")) c8Cfg).underlyingProxy
      = some ("proxy") :=
  (c8_underlying_proxy_fill (some ("proxy")) c8Cfg (by decide)).1 (by decide)

/-- `vmessHostStep` only touches `sni`. -/
theorem vmessHostStep_fields (node : VmessNodeConfig) :
    (vmessHostStep node).network = node.network
    ∧ (vmessHostStep node).path = node.path
    ∧ (vmessHostStep node).wsHeaders = node.wsHeaders
    ∧ (vmessHostStep node).wsOpts = node.wsOpts := by
  unfold vmessHostStep
  split <;> simp

/-- The node declares websocket headers in two places (the fatal-conflict
condition of the `wsHeaders` block). -/
def wsConflict (node : VmessNodeConfig) : Bool :=
  node.wsHeaders.isSome &&
    (match node.wsOpts with
     | some w => w.headers.isSome
     | none => false)

/-- Under the double-declaration conflict the `wsHeaders` block throws. -/
theorem vmessWsHeadersStep_of_conflict (node : VmessNodeConfig)
    (h : wsConflict node = true) :
    vmessWsHeadersStep node
      = .error ("wsOpts.headers 和 wsHeaders 不能同时存在") := by
  unfold wsConflict at h
  unfold vmessWsHeadersStep
  cases hwo : node.wsOpts with
  | none => rw [hwo] at h; simp at h
  | some w =>
    rw [hwo] at h
    simp only [Bool.and_eq_true] at h
    simp [h.1, h.2]

/-- The `wsHeaders` block can only throw the conflict error, and only
under the conflict condition. -/
theorem vmessWsHeadersStep_error_eq (node : VmessNodeConfig) (e : String)
    (h : vmessWsHeadersStep node = .error e) :
    e = "wsOpts.headers 和 wsHeaders 不能同时存在"
    ∧ wsConflict node = true := by
  unfold vmessWsHeadersStep at h
  split at h
  next hh =>
    split at h
    next hwo => exact Except.noConfusion h
    next w hwo =>
      split at h
      next hwh =>
        exact ⟨(Except.error.inj h).symm, by simp [wsConflict, hh, hwo, hwh]⟩
      next hwh => exact Except.noConfusion h
  next hh => exact Except.noConfusion h

/-- A successful `wsHeaders` block preserves `network`, `path` and
`sni`. -/
theorem vmessWsHeadersStep_ok_fields (node r : VmessNodeConfig)
    (h : vmessWsHeadersStep node = .ok r) :
    r.network = node.network ∧ r.path = node.path ∧ r.sni = node.sni := by
  unfold vmessWsHeadersStep at h
  split at h
  next hh =>
    split at h
    next hwo => cases Except.ok.inj h; simp
    next w hwo =>
      split at h
      next hwh => exact Except.noConfusion h
      next hwh => cases Except.ok.inj h; simp
  next hh => cases Except.ok.inj h; simp

/-- The transport/path checks return the node unchanged when they pass. -/
theorem vmessPathChecks_ok (n r : VmessNodeConfig)
    (h : vmessPathChecks n = .ok r) : r = n := by
  unfold vmessPathChecks at h
  split at h
  · exact Except.noConfusion h
  · split at h
    · exact Except.noConfusion h
    · split at h
      · exact Except.noConfusion h
      · exact (Except.ok.inj h).symm

/-- The error message of the transport/path check matching a transport. -/
def pathErrorMsg (network : Option String) : String :=
  if network = some ("ws") then "请将 path 移动到 wsOpts.path"
  else if network = some ("h2") then "请将 path 移动到 h2Opts.path"
  else "请将 path 移动到 httpOpts.path"

/-- Claim C7: a vmess node whose transport is `ws`, `h2` or `http` and
whose top-level legacy `path` is set (truthy) always fails vmess
post-processing — the `wsHeaders` block never clears the original `path`
field, so the matching transport check fires even after a relocation; the
error is the matching transport-specific message unless the
headers-conflict error fired first. -/
theorem c7_path_with_transport_always_fatal (node : VmessNodeConfig)
    (hpath : strTruthy node.path)
    (hnet : node.network = some ("ws") ∨ node.network = some ("h2")
      ∨ node.network = some ("http")) :
    prepareVmessNodeConfig node
      = .error (if wsConflict node = true
                then "wsOpts.headers 和 wsHeaders 不能同时存在"
                else pathErrorMsg node.network) := by
  obtain ⟨hn, hp, hwh, hwo⟩ := vmessHostStep_fields node
  have hconf_eq : wsConflict (vmessHostStep node) = wsConflict node := by
    unfold wsConflict; rw [hwh, hwo]
  cases hstep : vmessWsHeadersStep (vmessHostStep node) with
  | error e =>
    obtain ⟨he, hc⟩ := vmessWsHeadersStep_error_eq _ e hstep
    rw [hconf_eq] at hc
    have hpre : prepareVmessNodeConfig node = .error e := by
      unfold prepareVmessNodeConfig; rw [hstep]
    rw [hpre, he, if_pos hc]
  | ok r =>
    obtain ⟨hrn, hrp, hrs⟩ := vmessWsHeadersStep_ok_fields _ r hstep
    have hrn2 : r.network = node.network := by rw [hrn, hn]
    have hrp2 : r.path = node.path := by rw [hrp, hp]
    have hcfalse : wsConflict node = false := by
      by_contra hcc
      have hcc2 : wsConflict (vmessHostStep node) = true := by
        rw [hconf_eq]
        exact eq_true_of_ne_false (fun hf => hcc hf)
      rw [vmessWsHeadersStep_of_conflict _ hcc2] at hstep
      exact Except.noConfusion hstep
    have hpre : prepareVmessNodeConfig node = vmessPathChecks r := by
      unfold prepareVmessNodeConfig; rw [hstep]
    have hrpath : strTruthy r.path = true := by rw [hrp2]; exact hpath
    rw [hpre, if_neg (by rw [hcfalse]; exact Bool.false_ne_true)]
    unfold vmessPathChecks
    rcases hnet with h1 | h1 | h1
    · have hc1 : r.network = some ("ws") ∧ strTruthy r.path = true :=
        ⟨by rw [hrn2, h1], hrpath⟩
      rw [if_pos hc1, h1]
      rfl
    · have hne1 : ¬(r.network = some ("ws") ∧ strTruthy r.path = true) := by
        rw [hrn2, h1]
        intro hcc
        exact absurd hcc.1 (by decide)
      have hc2 : r.network = some ("h2") ∧ strTruthy r.path = true :=
        ⟨by rw [hrn2, h1], hrpath⟩
      rw [if_neg hne1, if_pos hc2, h1]
      rfl
    · have hne1 : ¬(r.network = some ("ws") ∧ strTruthy r.path = true) := by
        rw [hrn2, h1]
        intro hcc
        exact absurd hcc.1 (by decide)
      have hne2 : ¬(r.network = some ("h2") ∧ strTruthy r.path = true) := by
        rw [hrn2, h1]
        intro hcc
        exact absurd hcc.1 (by decide)
      have hc3 : r.network = some ("http") ∧ strTruthy r.path = true :=
        ⟨by rw [hrn2, h1], hrpath⟩
      rw [if_neg hne1, if_neg hne2, if_pos hc3, h1]
      rfl

/-- The vmess node of the C7 witness: transport `ws`, legacy `path` set,
and `wsHeaders` present with no `wsOpts`, so the `wsHeaders` block freshly
constructs `wsOpts` (relocating the path) — and the `ws` check still
fires. -/
def c7Node : VmessNodeConfig :=
  { hostname := ("h"), port := 443, network := some ("ws"), host := none,
    sni := none, path := some ("/x"), wsHeaders := some [], wsOpts := none,
    underlyingProxy := none }

/-- Witness for C7 at `c7Node`. -/
theorem c7_witness :
    prepareVmessNodeConfig c7Node
      = .error (if wsConflict c7Node = true
                then "wsOpts.headers 和 wsHeaders 不能同时存在"
                else pathErrorMsg c7Node.network) :=
  c7_path_with_transport_always_fatal c7Node (by decide) (Or.inl (by decide))

/-- The server-name attribute after the host step. -/
theorem vmessHostStep_sni (node : VmessNodeConfig) :
    (vmessHostStep node).sni
      = (if strTruthy node.host then node.host else node.sni) := by
  unfold vmessHostStep
  split <;> simp

/-- Claim C6: with `wsHeaders` present — (a) no `wsOpts` yet: a successful
node carries a freshly constructed `wsOpts` holding those headers and the
legacy path defaulted to `/`; (b) `wsOpts` already declares headers: the
node fails with the conflict error; (c) `wsOpts` without headers: the
legacy headers are merged in, the existing path kept. -/
theorem c6_wsHeaders_reconciliation (node : VmessNodeConfig) (hdrs : Headers)
    (hws : node.wsHeaders = some hdrs) :
    (node.wsOpts = none → ∀ r, prepareVmessNodeConfig node = .ok r →
      r.wsOpts = some (WsOpts.mk (some hdrs) (some (strOr node.path ("/")))))
    ∧ (∀ w, node.wsOpts = some w → w.headers.isSome →
      prepareVmessNodeConfig node
        = .error ("wsOpts.headers 和 wsHeaders 不能同时存在"))
    ∧ (∀ w, node.wsOpts = some w → w.headers = none →
      ∀ r, prepareVmessNodeConfig node = .ok r →
      r.wsOpts = some (WsOpts.mk (some hdrs) w.path)) := by
  obtain ⟨hn, hp, hwh, hwo⟩ := vmessHostStep_fields node
  have hmh : (vmessHostStep node).wsHeaders = some hdrs := by rw [hwh, hws]
  refine ⟨?_, ?_, ?_⟩
  · intro hwo0 r hr
    have hmo : (vmessHostStep node).wsOpts = none := by rw [hwo, hwo0]
    have hstep : vmessWsHeadersStep (vmessHostStep node) = .ok { vmessHostStep node with wsOpts := some (WsOpts.mk (some hdrs) (some (strOr ((vmessHostStep node).path) ("/")))) } := by
      unfold vmessWsHeadersStep
      simp [hmo, hmh]
    unfold prepareVmessNodeConfig at hr
    rw [hstep] at hr
    have hr2 : vmessPathChecks { vmessHostStep node with wsOpts := some (WsOpts.mk (some hdrs) (some (strOr ((vmessHostStep node).path) ("/")))) } = .ok r := hr
    rw [vmessPathChecks_ok _ r hr2, hp]
  · intro w hwo0 hwhd
    have hstep := vmessWsHeadersStep_of_conflict (vmessHostStep node)
      (by simp [wsConflict, hmh, hwo.trans hwo0, hwhd])
    unfold prepareVmessNodeConfig
    rw [hstep]
  · intro w hwo0 hwh0 r hr
    have hmo : (vmessHostStep node).wsOpts = some w := hwo.trans hwo0
    have hstep : vmessWsHeadersStep (vmessHostStep node) = .ok { vmessHostStep node with wsOpts := some (WsOpts.mk (some hdrs) (w.path)) } := by
      unfold vmessWsHeadersStep
      simp [hmo, hmh, hwh0]
    unfold prepareVmessNodeConfig at hr
    rw [hstep] at hr
    have hr2 : vmessPathChecks { vmessHostStep node with wsOpts := some (WsOpts.mk (some hdrs) (w.path)) } = .ok r := hr
    rw [vmessPathChecks_ok _ r hr2]

/-- The vmess node of the C6 witness: headers declared both as `wsHeaders`
and inside `wsOpts`. -/
def c6Node : VmessNodeConfig :=
  { hostname := ("h"), port := 443, network := none, host := none,
    sni := none, path := none, wsHeaders := some [],
    wsOpts := some (WsOpts.mk (some []) none), underlyingProxy := none }

/-- Witness for C6: the double declaration is rejected with the conflict
error. -/
theorem c6_witness :
    prepareVmessNodeConfig c6Node
      = .error ("wsOpts.headers 和 wsHeaders 不能同时存在") :=
  (c6_wsHeaders_reconciliation c6Node [] rfl).2.1
    (WsOpts.mk (some []) none) rfl (by decide)

/-- Claim C5 as stated: in vmess post-processing `host` is copied into the
server-name only when no explicit `sni` is set, and a node already
carrying an explicit server-name keeps it. -/
def hostCopyKeepsExplicitSni : Prop :=
  ∀ (node r : VmessNodeConfig), prepareVmessNodeConfig node = .ok r →
    (strTruthy node.host = true → strTruthy node.sni = false →
      r.sni = node.host)
    ∧ (strTruthy node.sni = true → r.sni = node.sni)

/-- The vmess node refuting C5: both `host` and an explicit `sni` set. -/
def c5Node : VmessNodeConfig :=
  { hostname := ("h"), port := 443, network := none,
    host := some ("a.example.com"), sni := some ("b.example.com"),
    path := none, wsHeaders := none, wsOpts := none,
    underlyingProxy := none }

/-- Counterexample to C5: on `c5Node` the code overwrites the explicit
server-name `b.example.com` with the host `a.example.com`, so the claim
as stated is false. -/
theorem c5_counterexample :
    prepareVmessNodeConfig c5Node
      = .ok { c5Node with sni := some ("a.example.com") }
    ∧ ¬ hostCopyKeepsExplicitSni := by
  constructor
  · decide
  · intro hclaim
    have h2 := (hclaim c5Node { c5Node with sni := some ("a.example.com") }
      (by decide)).2 (by decide)
    exact absurd h2 (by decide)

/-- Claim C5 amended: when `host` is present (truthy) it is copied into
the server-name attribute of every successful result, overwriting any
explicit `sni`; when `host` is absent or empty the server-name is kept. -/
theorem c5_amended_host_overwrites_sni (node r : VmessNodeConfig)
    (h : prepareVmessNodeConfig node = .ok r) :
    (strTruthy node.host = true → r.sni = node.host)
    ∧ (strTruthy node.host = false → r.sni = node.sni) := by
  unfold prepareVmessNodeConfig at h
  cases hstep : vmessWsHeadersStep (vmessHostStep node) with
  | error e => rw [hstep] at h; exact Except.noConfusion h
  | ok m2 =>
    rw [hstep] at h
    have h2 : vmessPathChecks m2 = .ok r := h
    have hrm := vmessPathChecks_ok _ r h2
    have hs := (vmessWsHeadersStep_ok_fields _ m2 hstep).2.2
    constructor
    · intro ht
      rw [hrm, hs, vmessHostStep_sni, if_pos ht]
    · intro hf
      rw [hrm, hs, vmessHostStep_sni,
        if_neg (by rw [hf]; exact Bool.false_ne_true)]

/-- Witness for the amended C5 at `c5Node`: the result's server-name
equals the host. -/
theorem c5_witness :
    ({ c5Node with sni := some ("a.example.com") } : VmessNodeConfig).sni
      = c5Node.host :=
  (c5_amended_host_overwrites_sni c5Node
    { c5Node with sni := some ("a.example.com") } (by decide)).1 (by decide)

/-- The legacy decode step never touches the deprecated fields. -/
theorem decodeBase64Step_preserves_deprecated (node n1 : RawNode)
    (h : decodeBase64Step node = .ok n1) :
    n1.udpRelay = node.udpRelay ∧ n1.obfsHost = node.obfsHost
    ∧ n1.obfsUri = node.obfsUri := by
  unfold decodeBase64Step at h
  split at h
  next => cases Except.ok.inj h; simp
  next b64 hb =>
    split at h
    · cases Except.ok.inj h; simp
    · split at h
      next => exact Except.noConfusion h
      next m hm =>
        dsimp only at h
        split at h
        · unfold ssApplyDecoded at h
          dsimp only at h
          split at h
          next => exact Except.noConfusion h
          next pwh hget => cases Except.ok.inj h; simp
        · cases Except.ok.inj h; simp
        · cases Except.ok.inj h; simp

/-- A failing decode step fails the whole per-descriptor unit with the
same error. -/
theorem processNode_decode_error (up : Option String) (node : RawNode)
    (e : String) (h : decodeBase64Step node = .error e) :
    processNode up node = .error e := by
  unfold processNode; rw [h]

/-- A successful decode step hands over to the post-decode stages. -/
theorem processNode_decode_ok (up : Option String) (node n1 : RawNode)
    (h : decodeBase64Step node = .ok n1) :
    processNode up node = processAfterDecode up n1 := by
  unfold processNode; rw [h]

/-- Claim C4 as stated: the mere presence of a deprecated field
(`udp-relay`, `obfs-host`, `obfs-uri`) on a descriptor is fatal for that
descriptor, regardless of the field's value. -/
def deprecatedPresenceAlwaysFatal : Prop :=
  ∀ (up : Option String) (node : RawNode),
    (node.udpRelay ≠ none ∨ node.obfsHost ≠ none ∨ node.obfsUri ≠ none) →
    ∃ e, processNode up node = .error e

/-- The descriptor refuting C4: `udp-relay` present with the falsy value
`false`, otherwise a valid shadowsocks descriptor. -/
def c4Node : RawNode :=
  { type := some ("shadowsocks"), hostname := some ("e.com"),
    port := some (.num 80), method := some ("m"), password := some ("p"),
    udpRelay := some (.boolV false) }

/-- Counterexample to C4: `c4Node` carries the deprecated field
`udp-relay` (with value `false`), yet its processing succeeds — the guard
tests JS truthiness, so falsy values are silently accepted. -/
theorem c4_counterexample :
    processNode none c4Node
      = .ok (.shadowsocks
          { hostname := ("e.com"), port := 80, method := ("m"),
            password := ("p"), underlyingProxy := none })
    ∧ ¬ deprecatedPresenceAlwaysFatal := by
  constructor
  · decide
  · intro hclaim
    obtain ⟨e, he⟩ := hclaim none c4Node (Or.inl (by decide))
    rw [show processNode none c4Node
        = .ok (.shadowsocks
            { hostname := ("e.com"), port := 80, method := ("m"),
              password := ("p"), underlyingProxy := none }) from by decide]
      at he
    exact Except.noConfusion he

/-- The message of the first deprecated-field check that fires. -/
def firstDeprecatedMsg (node : RawNode) : String :=
  if truthyOpt node.udpRelay then "udp-relay 已废弃, 请使用 udpRelay"
  else if truthyOpt node.obfsHost then "obfs-host 已废弃, 请使用 obfsHost"
  else "obfs-uri 已废弃, 请使用 obfsUri"

/-- Claim C4 amended: a deprecated field with a truthy value is fatal for
the descriptor; when the legacy decode stage succeeds, the failure names
the deprecated field and its replacement (falsy values pass the guard
silently, refuting the original claim). -/
theorem c4_amended_truthy_deprecated_fatal (up : Option String)
    (node : RawNode)
    (h : truthyOpt node.udpRelay = true ∨ truthyOpt node.obfsHost = true
      ∨ truthyOpt node.obfsUri = true) :
    (∃ e, processNode up node = .error e)
    ∧ (∀ n1, decodeBase64Step node = .ok n1 →
      processNode up node = .error (firstDeprecatedMsg node)) := by
  have hck : ∀ n1, decodeBase64Step node = .ok n1 →
      checkDeprecated n1 = .error (firstDeprecatedMsg node) := by
    intro n1 hd
    obtain ⟨h1, h2, h3⟩ := decodeBase64Step_preserves_deprecated node n1 hd
    unfold checkDeprecated firstDeprecatedMsg
    rw [h1, h2, h3]
    cases hu : truthyOpt node.udpRelay with
    | true => simp
    | false =>
      cases ho : truthyOpt node.obfsHost with
      | true => simp
      | false =>
        cases hz : truthyOpt node.obfsUri with
        | true => simp
        | false =>
          rcases h with ht | ht | ht
          · rw [hu] at ht; exact Bool.noConfusion ht
          · rw [ho] at ht; exact Bool.noConfusion ht
          · rw [hz] at ht; exact Bool.noConfusion ht
  have hmain : ∀ n1, decodeBase64Step node = .ok n1 →
      processNode up node = .error (firstDeprecatedMsg node) := by
    intro n1 hd
    rw [processNode_decode_ok up node n1 hd]
    unfold processAfterDecode
    rw [hck n1 hd]
  refine ⟨?_, hmain⟩
  cases hd : decodeBase64Step node with
  | error e => exact ⟨e, processNode_decode_error up node e hd⟩
  | ok n1 => exact ⟨firstDeprecatedMsg node, hmain n1 hd⟩

/-- The descriptor for the C4 witness: `udp-relay` truthy. -/
def c4wNode : RawNode :=
  { type := some ("shadowsocks"), hostname := some ("e.com"),
    port := some (.num 80), method := some ("m"), password := some ("p"),
    udpRelay := some (.boolV true) }

/-- Witness for the amended C4 at `c4wNode`. -/
theorem c4_witness :
    (∃ e, processNode none c4wNode = .error e)
    ∧ (∀ n1, decodeBase64Step c4wNode = .ok n1 →
      processNode none c4wNode = .error (firstDeprecatedMsg c4wNode)) :=
  c4_amended_truthy_deprecated_fatal none c4wNode (Or.inl (by decide))

/-- Claim C9 as stated: every descriptor carrying a legacy-envelope value
that does not match the pattern fails. -/
def envelopeNoMatchAlwaysFatal : Prop :=
  ∀ (up : Option String) (node : RawNode) (b64 : String),
    node.base64 = some b64 → matchBase64Pattern b64 = none →
    ∃ e, processNode up node = .error e

/-- The descriptor refuting C9: the envelope field holds the empty string
(which does not match the pattern), otherwise a valid shadowsocks
descriptor. -/
def c9Node : RawNode :=
  { base64 := some (""), type := some ("shadowsocks"),
    hostname := some ("e.com"), port := some (.num 80),
    method := some ("m"), password := some ("p") }

/-- Counterexample to C9: the empty-string envelope is falsy, so the
`if (node.base64)` guard skips the format check entirely and the
descriptor succeeds. -/
theorem c9_counterexample :
    processNode none c9Node
      = .ok (.shadowsocks
          { hostname := ("e.com"), port := 80, method := ("m"),
            password := ("p"), underlyingProxy := none })
    ∧ ¬ envelopeNoMatchAlwaysFatal := by
  constructor
  · decide
  · intro hclaim
    obtain ⟨e, he⟩ := hclaim none c9Node ("") rfl (by decide)
    rw [show processNode none c9Node
        = .ok (.shadowsocks
            { hostname := ("e.com"), port := 80, method := ("m"),
              password := ("p"), underlyingProxy := none }) from by decide]
      at he
    exact Except.noConfusion he

/-- Claim C9 amended: a non-empty envelope value that does not match the
pattern fails the descriptor as format-invalid; the descriptor is dropped
from the result and the failure is recorded at its index (an empty-string
envelope is skipped by the truthiness guard). -/
theorem c9_amended_nonempty_no_match_fatal (p : CustomProvider)
    (node : RawNode) (b64 : String)
    (hb : node.base64 = some b64) (hne : b64 ≠ "")
    (hnm : matchBase64Pattern b64 = none) :
    processNode p.underlyingProxy node = .error ("Invalid base64 format")
    ∧ (∀ pre post,
      (p.getNodeList (pre ++ node :: post)).1
        = (p.getNodeList (pre ++ post)).1
      ∧ (pre.length, ("Invalid base64 format"))
          ∈ (p.getNodeList (pre ++ node :: post)).2) := by
  have hdec : decodeBase64Step node = .error ("Invalid base64 format") := by
    unfold decodeBase64Step
    rw [hb]
    dsimp only
    rw [if_neg hne, hnm]
  have hpn : processNode p.underlyingProxy node
      = .error ("Invalid base64 format") :=
    processNode_decode_error _ node _ hdec
  refine ⟨hpn, ?_⟩
  intro pre post
  constructor
  · have h1 : (p.getNodeList (pre ++ node :: post)).1
        = expectedResults p.underlyingProxy (pre ++ node :: post) := by
      rw [getNodeList_eq]
    have h2 : (p.getNodeList (pre ++ post)).1
        = expectedResults p.underlyingProxy (pre ++ post) := by
      rw [getNodeList_eq]
    rw [h1, h2]
    unfold expectedResults
    rw [List.filterMap_append, List.filterMap_append, List.filterMap_cons]
    simp [hpn, Except.toOption]
  · have h3 : (p.getNodeList (pre ++ node :: post)).2
        = expectedErrors p.underlyingProxy (pre ++ node :: post) 0 := by
      rw [getNodeList_eq]
    rw [h3, expectedErrors_append]
    have h4 : expectedErrors p.underlyingProxy (node :: post) (0 + pre.length)
        = (0 + pre.length, ("Invalid base64 format"))
          :: expectedErrors p.underlyingProxy post (0 + pre.length + 1) := by
      simp only [expectedErrors, hpn]
    rw [h4]
    simp

/-- The descriptor of the C9 witness: a non-empty envelope that does not
match the pattern. -/
def c9wNode : RawNode := { base64 := some ("ss:/bad") }

/-- Witness for the amended C9 at `c9wNode`. -/
theorem c9_witness :
    processNode (CustomProvider.mk ("p") none).underlyingProxy c9wNode
      = .error ("Invalid base64 format") :=
  (c9_amended_nonempty_no_match_fatal (CustomProvider.mk ("p") none) c9wNode
    ("ss:/bad") rfl (by decide) (by decide)).1

/-- An envelope `ss://` followed by a non-empty run of payload characters
matches the pattern with scheme `ss`, the run as payload and no
fragment. -/
theorem matchBase64Pattern_ss (b64 : String)
    (hne : b64.data ≠ []) (hall : ∀ c ∈ b64.data, isBase64Char c) :
    matchBase64Pattern ("ss://" ++ b64)
      = some (Base64Match.mk ("ss") b64 none) := by
  unfold matchBase64Pattern
  have hdata : ("ss://" ++ b64).data
      = ['s','s',':','/','/'] ++ b64.data := rfl
  rw [hdata]
  have hpre : schemePrefix? (['s','s',':','/','/'] ++ b64.data)
      = some (("ss"), b64.data) := by
    unfold schemePrefix?
    rw [if_pos (by simp)]
    simp
  rw [hpre]
  dsimp only
  rw [List.takeWhile_eq_self_iff.mpr hall, List.dropWhile_eq_nil_iff.mpr hall]
  rw [if_neg hne]

/-- A decimal digit is not `parseInt` whitespace. -/
theorem isDigit_not_space (c : Char) (h : c.isDigit = true) :
    isJsSpace c = false := by
  unfold isJsSpace
  rw [decide_eq_false_iff_not]
  rintro (rfl | rfl | rfl | rfl) <;> exact absurd h (by decide)

/-- `parseInt` on a non-empty all-digit string yields its decimal value. -/
theorem parseIntStr_digits (po : List Char) (hne : po ≠ [])
    (hdig : ∀ c ∈ po, c.isDigit = true) :
    parseIntStr (String.mk po) = .num (digitsVal po 0) := by
  unfold parseIntStr
  dsimp only
  have hdrop : po.dropWhile isJsSpace = po := by
    cases po with
    | nil => rfl
    | cons c rest =>
      rw [List.dropWhile_cons, isDigit_not_space c (hdig c (by simp))]
      simp
  rw [hdrop]
  have hhm : po.head? ≠ some '-' := by
    cases po with
    | nil => simp
    | cons c rest =>
      simp only [List.head?_cons]
      intro hc
      cases Option.some.inj hc
      exact absurd (hdig '-' (by simp)) (by decide)
  have hhp : po.head? ≠ some '+' := by
    cases po with
    | nil => simp
    | cons c rest =>
      simp only [List.head?_cons]
      intro hc
      cases Option.some.inj hc
      exact absurd (hdig '+' (by simp)) (by decide)
  rw [if_neg hhm, if_neg (not_or.mpr ⟨hhm, hhp⟩)]
  rw [List.takeWhile_eq_self_iff.mpr hdig]
  rw [if_neg hne]
  simp

/-- Claim C2 amended: the decoder splits the decoded payload on `:` —
taking the first three pieces as method, `password@hostname`, and port —
and then splits the middle piece on `@`; when method, password and
hostname contain no extra `:` or `@` and the port is a digit string, this
merges exactly the four fields method, password, hostname and numeric
port into the descriptor (overwriting same-named fields) and sets the
type tag to the Shadowsocks variant.  (On payloads whose fields contain
extra separators this split-on-`:` disagrees with the claimed
split-on-first-`@`; see the counterexample.) -/
theorem c2_amended_ss_payload_merge (node : RawNode) (b64 : String)
    (m p h po : List Char)
    (hm : ∀ c ∈ m, c ≠ ':' ∧ c ≠ '@')
    (hp : ∀ c ∈ p, c ≠ ':' ∧ c ≠ '@')
    (hh : ∀ c ∈ h, c ≠ ':' ∧ c ≠ '@')
    (hpo : po ≠ [] ∧ ∀ c ∈ po, c.isDigit = true)
    (hb : node.base64 = some ("ss://" ++ b64))
    (hb64 : b64.data ≠ [] ∧ ∀ c ∈ b64.data, isBase64Char c)
    (hdec : (Base64.decode b64).data = m ++ ':' :: p ++ '@' :: h ++ ':' :: po) :
    decodeBase64Step node = .ok { node with
      type := some NodeTypeEnum.Shadowsocks,
      hostname := some (String.mk h),
      port := some (JNum.num (digitsVal po 0)),
      method := some (String.mk m),
      password := some (String.mk p) } := by
  obtain ⟨hne64, hall64⟩ := hb64
  obtain ⟨hpone, hpodig⟩ := hpo
  have hmatch := matchBase64Pattern_ss b64 hne64 hall64
  have hsne : ("ss://" ++ b64) ≠ "" := by
    intro hq
    have h0 : ("ss://" ++ b64).data = [] := by rw [hq]
    rw [show ("ss://" ++ b64).data = ['s','s',':','/','/'] ++ b64.data
      from rfl] at h0
    exact List.noConfusion h0
  unfold decodeBase64Step
  rw [hb]
  dsimp only
  rw [if_neg hsne, hmatch]
  dsimp only
  rw [show switchBranch (nodeTypeMap ("ss")) = DecodeBranch.ssCase from rfl]
  dsimp only
  unfold ssApplyDecoded
  dsimp only
  rw [hdec]
  have e2 : m ++ ':' :: p ++ '@' :: h ++ ':' :: po
      = m ++ ':' :: ((p ++ '@' :: h) ++ ':' :: po) := by simp
  rw [e2]
  rw [jsSplit_append ':' m ((p ++ '@' :: h) ++ ':' :: po)
    (fun c hc => (hm c hc).1)]
  have hmid : ∀ c ∈ p ++ '@' :: h, c ≠ ':' := by
    intro c hc
    rcases List.mem_append.mp hc with h1 | h1
    · exact (hp c h1).1
    · rcases List.mem_cons.mp h1 with h2 | h2
      · rw [h2]; decide
      · exact (hh c h2).1
  rw [jsSplit_append ':' (p ++ '@' :: h) po hmid]
  have hpocolon : ∀ c ∈ po, c ≠ ':' := by
    intro c hc hc2
    have hd := hpodig c hc
    rw [hc2] at hd
    exact absurd hd (by decide)
  rw [jsSplit_eq_single ':' po hpocolon]
  dsimp only [List.map_cons, List.map_nil]
  simp only [List.get?]
  rw [jsSplit_append '@' p h (fun c hc => (hp c hc).2)]
  rw [jsSplit_eq_single '@' h (fun c hc => (hh c hc).2)]
  dsimp only [List.map_cons, List.map_nil]
  simp only [List.get?, List.headD]
  rw [show parseIntJS (some (String.mk po)) = parseIntStr (String.mk po)
    from rfl]
  rw [parseIntStr_digits po hpone hpodig, hb]

/-- Split a character list at the first occurrence of `sep`. -/
def splitFirst (sep : Char) : List Char → Option (List Char × List Char)
  | [] => none
  | c :: rest =>
    if c = sep then some ([], rest)
    else
      match splitFirst sep rest with
      | none => none
      | some pr => some (c :: pr.1, pr.2)

/-- The decomposition the claim describes (spec side, for comparison):
split the decoded payload on the first `@` to separate `method:password`
from `host:port`, then split each half at its separator. -/
def specSplitSS (cs : List Char) :
    Option (List Char × List Char × List Char × List Char) :=
  match splitFirst '@' cs with
  | none => none
  | some lr =>
    match splitFirst ':' lr.1, splitFirst ':' lr.2 with
    | some mp, some hpo => some (mp.1, mp.2, hpo.1, hpo.2)
    | _, _ => none

/-- Claim C2 as stated: for every `ss` envelope whose decoded payload has
the form `method:password@hostname:port` under the split-on-first-`@`
reading, the decoder merges those four fields into the descriptor. -/
def ssEnvelopeSplitsOnAt : Prop :=
  ∀ (node : RawNode) (b64 : String) (m p h po : List Char),
    node.base64 = some ("ss://" ++ b64) →
    matchBase64Pattern ("ss://" ++ b64)
      = some (Base64Match.mk ("ss") b64 none) →
    specSplitSS (Base64.decode b64).data = some (m, p, h, po) →
    decodeBase64Step node = .ok { node with
      type := some NodeTypeEnum.Shadowsocks,
      hostname := some (String.mk h),
      port := some (parseIntStr (String.mk po)),
      method := some (String.mk m),
      password := some (String.mk p) }

/-- The descriptor refuting C2: the payload decodes to `aes:a:b@h:80`,
whose password contains a `:`. -/
def c2Node : RawNode := { base64 := some ("ss://YWVzOmE6YkBoOjgw") }

/-- Counterexample to C2: on the payload `aes:a:b@h:80` the claimed
split-on-first-`@` gives method `aes`, password `a:b`, hostname `h`,
port `80`, but the code's split-on-`:` produces password `a`, no
hostname and `NaN` as port, so the claim as stated is false. -/
theorem c2_counterexample :
    Base64.decode ("YWVzOmE6YkBoOjgw") = ("aes:a:b@h:80")
    ∧ specSplitSS ("aes:a:b@h:80").data
        = some (("aes").data, ("a:b").data, ("h").data, ("80").data)
    ∧ decodeBase64Step c2Node = .ok { c2Node with
        type := some NodeTypeEnum.Shadowsocks,
        hostname := none,
        port := some JNum.nan,
        method := some ("aes"),
        password := some ("a") }
    ∧ ¬ ssEnvelopeSplitsOnAt := by
  refine ⟨by decide, by decide, by decide, ?_⟩
  intro hclaim
  have hcl := hclaim c2Node ("YWVzOmE6YkBoOjgw") ("aes").data ("a:b").data
    ("h").data ("80").data rfl (by decide) (by decide)
  rw [show decodeBase64Step c2Node = .ok { c2Node with
      type := some NodeTypeEnum.Shadowsocks,
      hostname := none,
      port := some JNum.nan,
      method := some ("aes"),
      password := some ("a") } from by decide] at hcl
  have heq := Except.ok.inj hcl
  have hpw := congrArg RawNode.password heq
  exact absurd hpw (by decide)

/-- The descriptor of the C2 witness: the payload decodes to
`aes-256-gcm:secret@example.com:8388`. -/
def c2wNode : RawNode :=
  { base64 := some ("ss://YWVzLTI1Ni1nY206c2VjcmV0QGV4YW1wbGUuY29tOjgzODg=") }

/-- Witness for the amended C2 at `c2wNode`. -/
theorem c2_witness :
    decodeBase64Step c2wNode = .ok { c2wNode with
      type := some NodeTypeEnum.Shadowsocks,
      hostname := some (String.mk (("example.com").data)),
      port := some (JNum.num (digitsVal (("8388").data) 0)),
      method := some (String.mk (("aes-256-gcm").data)),
      password := some (String.mk (("secret").data)) } :=
  c2_amended_ss_payload_merge c2wNode
    ("YWVzLTI1Ni1nY206c2VjcmV0QGV4YW1wbGUuY29tOjgzODg=")
    (("aes-256-gcm").data) (("secret").data) (("example.com").data)
    (("8388").data)
    (by decide) (by decide) (by decide) (by decide) rfl (by decide)
    (by decide)
